import Mathlib

/-!
Shallow embedding of the FastSD GIMP plugin (src/fastsd-gimp-plugin.py):
a client-side orchestrator that talks to a locally running image-generation
server over HTTP, builds a generation request from server defaults and user
input, submits it, and decodes the returned base64 payload into a temporary
image file.

Network and filesystem effects are modelled explicitly: the outcome of each
HTTP exchange is an input (the environment's behaviour), and the files a call
creates are returned alongside its result. Python exceptions are modelled by
the inductive `PyExc`, with `raise ... from cause` chains kept explicit.
-/

namespace FastSD

/-- JSON values, as produced by Python's `json.loads` (numbers restricted to
integers, which is all the plugin exchanges). -/
inductive Json where
  | null : Json
  | bool : Bool → Json
  | num : Int → Json
  | str : String → Json
  | arr : List Json → Json
  | obj : List (String × Json) → Json

/-- Python `dict.get(key)`: `some` value on an object holding the key,
`none` otherwise. -/
def Json.lookup : Json → String → Option Json
  | .obj fields, key => List.lookup key fields
  | _, _ => none

/-- Python exceptions the plugin can raise or observe, with `from` causes. -/
inductive PyExc where
  /-- a bare `Exception(msg)` -/
  | exc : String → PyExc
  /-- `RuntimeError(msg)` raised with `from cause` -/
  | runtime : String → Option PyExc → PyExc
  /-- a connection-level error from `http.client` -/
  | conn : String → PyExc
  /-- `json.JSONDecodeError` from `json.loads` -/
  | jsonError : String → PyExc
  /-- `KeyError(key)` from a missing dict key -/
  | keyError : String → PyExc
  /-- `IndexError` from an out-of-range list subscript -/
  | indexError : String → PyExc
  /-- `TypeError` from an ill-typed operation -/
  | typeError : String → PyExc
  /-- `binascii.Error` from an invalid base64 payload -/
  | valueError : String → PyExc
  /-- `OSError` from a failed file write -/
  | osError : String → PyExc

/-- Python `str(exception)`: the message carried by the exception. -/
def PyExc.message : PyExc → String
  | .exc m => m
  | .runtime m _ => m
  | .conn m => m
  | .jsonError m => m
  | .keyError k => "'" ++ k ++ "'"
  | .indexError m => m
  | .typeError m => m
  | .valueError m => m
  | .osError m => m

/-- Environment outcome of one raw GET exchange: the connection/read may fail,
the body may fail to parse, or a JSON value comes back. -/
inductive RawGet where
  | connFail : String → RawGet
  | badBody : String → RawGet
  | ok : Json → RawGet

/-- Environment outcome of one raw POST exchange to `/api/generate`. -/
inductive RawPost where
  | connFail : String → RawPost
  | badBody : String → RawPost
  | ok : Json → RawPost

/-- `FastSDRequests.get_request`: performs one GET and parses the body;
any exception is re-raised as a bare `Exception("Error: " + str(e))`. -/
def get_request : RawGet → Except PyExc Json
  | .ok j => .ok j
  | .connFail m => .error (.exc ("Error: " ++ PyExc.message (.conn m)))
  | .badBody m => .error (.exc ("Error: " ++ PyExc.message (.jsonError m)))

/-- `FastSDRequests.generate_text_to_image`: performs one POST of the serialized
config and parses the body; there is NO try/except here, so the underlying
exception propagates unwrapped. -/
def generate_text_to_image : RawPost → Except PyExc Json
  | .ok j => .ok j
  | .connFail m => .error (.conn m)
  | .badBody m => .error (.jsonError m)

/-- `FastSDRequests.load_settings`: GET `/api/config`; a failure is re-raised
as `RuntimeError("Failed to get settings!") from exception`. -/
def load_settings (r : RawGet) : Except PyExc Json :=
  match get_request r with
  | .ok config => .ok config
  | .error e => .error (.runtime "Failed to get settings!" (some e))

/-- `FastSDRequests.get_info`: GET `/api/info`; a failure is re-raised as
`RuntimeError("Failed to get info from FastSD") from exception`. -/
def get_info (r : RawGet) : Except PyExc Json :=
  match get_request r with
  | .ok result => .ok result
  | .error e => .error (.runtime "Failed to get info from FastSD" (some e))

/-- Python subscript `j[key]` on a parsed JSON value: `KeyError` on a missing
key, `TypeError` when the value is not a dict. -/
def subscript (j : Json) (key : String) : Except PyExc Json :=
  match j with
  | .obj fields =>
      match List.lookup key fields with
      | some v => .ok v
      | none => .error (.keyError key)
  | _ => .error (.typeError "object is not subscriptable")

/-- `FastSDRequests.get_models`: GET `/api/models` and extract
`result["openvino_models"]`; any failure (transport or missing field) is
re-raised as `RuntimeError("Failed to get models from API") from exception`. -/
def get_models (r : RawGet) : Except PyExc Json :=
  match get_request r with
  | .error e => .error (.runtime "Failed to get models from API" (some e))
  | .ok result =>
      match subscript result "openvino_models" with
      | .ok models => .ok models
      | .error e => .error (.runtime "Failed to get models from API" (some e))

/-- `FastSDPlugin.init_ui_settings`: fetch settings and models in two
independent `try` blocks; on a `RuntimeError` the settings fall back to `{}`
and the models fall back to `[]`. Returns `(self.settings, self.models)`. -/
def init_ui_settings (configR modelsR : RawGet) : Json × Json :=
  (match load_settings configR with
   | .ok s => s
   | .error _ => Json.obj [],
   match get_models modelsR with
   | .ok m => m
   | .error _ => Json.arr [])

/-! ## Base64 (Python's `base64.b64decode` / `b64encode` on canonical data)

Bytes are natural numbers below 256. The model covers canonically padded
base64 strings, which is the shape every `b64encode` output has; Python
rejects other paddings or non-alphabet characters with `binascii.Error`
(leniencies of CPython's decoder on ill-formed input are not modelled, as the
plugin only round-trips server payloads). -/

/-- The standard base64 alphabet, in index order. -/
def b64alphabet : List Char :=
  String.toList "ABCDEFGHIJKLMNOPQRSTUVWXYZabcdefghijklmnopqrstuvwxyz0123456789+/"

/-- Character encoding one 6-bit group. -/
def sextetChar (n : Nat) : Char := b64alphabet.getD n '*'

/-- Index of a character in the base64 alphabet, if any. -/
def charSextet (c : Char) : Option Nat := b64alphabet.findIdx? (fun d => d = c)

/-- `base64.b64encode`, three input bytes per four output characters, with
`'='` padding. -/
def b64encode : List Nat → List Char
  | [] => []
  | [a] => [sextetChar (a / 4), sextetChar (a % 4 * 16), '=', '=']
  | [a, b] =>
      [sextetChar (a / 4), sextetChar (a % 4 * 16 + b / 16),
       sextetChar (b % 16 * 4), '=']
  | a :: b :: c :: rest =>
      sextetChar (a / 4) :: sextetChar (a % 4 * 16 + b / 16) ::
      sextetChar (b % 16 * 4 + c / 64) :: sextetChar (c % 64) :: b64encode rest

/-- The `binascii.Error` CPython raises on invalid base64 input. -/
def b64Err : Except PyExc (List Nat) :=
  Except.error (PyExc.valueError "Invalid base64-encoded string")

/-- `base64.b64decode` on canonically padded input, four characters per
chunk; anything else is a `binascii.Error`. -/
def b64decodeCore : List Char → Except PyExc (List Nat)
  | [] => Except.ok []
  | w :: x :: y :: z :: rest =>
      match charSextet w, charSextet x with
      | some sw, some sx =>
          if y = '=' then
            if z = '=' ∧ rest = [] then Except.ok [sw * 4 + sx / 16]
            else b64Err
          else
            match charSextet y with
            | some sy =>
                if z = '=' then
                  if rest = [] then
                    Except.ok [sw * 4 + sx / 16, sx % 16 * 16 + sy / 4]
                  else b64Err
                else
                  match charSextet z with
                  | some sz =>
                      match b64decodeCore rest with
                      | Except.ok bs =>
                          Except.ok ((sw * 4 + sx / 16) :: (sx % 16 * 16 + sy / 4) ::
                            (sy % 4 * 64 + sz) :: bs)
                      | Except.error e => Except.error e
                  | none => b64Err
            | none => b64Err
      | _, _ => b64Err
  | _ => b64Err

/-- `base64.b64decode` on a Python string. -/
def b64decode (s : String) : Except PyExc (List Nat) :=
  b64decodeCore s.toList

/-- `base64.b64encode` producing a Python string. -/
def b64encodeStr (bs : List Nat) : String := String.mk (b64encode bs)

/-! ## Generation orchestrator (`FastSDPlugin.generate_image`) -/

/-- Python subscript `j[i]` on a parsed JSON value: `IndexError` past the end
of a list, `TypeError` when the value is not a list. -/
def json_index (j : Json) (i : Nat) : Except PyExc Json :=
  match j with
  | .arr items =>
      match items.get? i with
      | some v => .ok v
      | none => .error (.indexError "list index out of range")
  | _ => .error (.typeError "object is not subscriptable")

/-- `base64.b64decode` applied to a JSON value: only strings are
bytes-like/ASCII arguments. -/
def json_b64decode (j : Json) : Except PyExc (List Nat) :=
  match j with
  | .str s => b64decode s
  | _ => .error (.typeError "argument should be a bytes-like object or ASCII string")

/-- The wrapper `generate_image` applies to every failure:
`RuntimeError("Failed to generate image ") from exception`. -/
def genFail (e : PyExc) : PyExc := .runtime "Failed to generate image " (some e)

/-- `FastSDPlugin.generate_image`, with its filesystem effect made explicit.

`post` is the environment's outcome for the POST of the serialized config
(performed through a fresh one-worker executor whose `future.result()` is
awaited inline); `freshPath` is the unique name `tempfile.NamedTemporaryFile`
would allocate; `writeErr` is `some msg` when the file write raises `OSError`.

Returns the raised-or-returned value together with the list of
`(path, bytes written)` files the call created on disk. The temporary file is
created (with `delete=False`) BEFORE `result["images"][0]` is read, so every
failure after a successful POST leaves one empty file behind; only a failure
of the POST itself creates no file. Every failure is re-raised as
`RuntimeError("Failed to generate image ") from exception`. -/
def generate_image (freshPath : String) (post : RawPost) (writeErr : Option String) :
    Except PyExc String × List (String × List Nat) :=
  match generate_text_to_image post with
  | .error e => (.error (genFail e), [])
  | .ok result =>
      match subscript result "images" with
      | .error e => (.error (genFail e), [(freshPath, [])])
      | .ok imgs =>
          match json_index imgs 0 with
          | .error e => (.error (genFail e), [(freshPath, [])])
          | .ok first =>
              match json_b64decode first with
              | .error e => (.error (genFail e), [(freshPath, [])])
              | .ok bytes =>
                  match writeErr with
                  | some m => (.error (genFail (.osError m)), [(freshPath, [])])
                  | none => (.ok freshPath, [(freshPath, bytes)])

/-! ## Parameter resolution, the generate-button handler and `run` -/

/-- `FastSDPlugin.find_index_by_text`: scan the combo rows for the target
text, returning its index, or `-1` when absent. -/
def find_index_aux : List String → String → Nat → Int
  | [], _, _ => -1
  | row :: rest, target, index =>
      if row = target then Int.ofNat index else find_index_aux rest target (index + 1)

/-- `FastSDPlugin.find_index_by_text` starting from index 0. -/
def find_index_by_text (rows : List String) (target : String) : Int :=
  find_index_aux rows target 0

/-- `run` lines 167-171: the diffusion defaults pulled out of
`self.settings`, falling back to `{}` for the missing section and to `512`
for missing dimensions. Returns `(img_width, img_height)` as the JSON values
the server reported, unvalidated. -/
def resolved_dims (settings : Json) : Json × Json :=
  let diffusion_setting := (settings.lookup "lcm_diffusion_setting").getD (Json.obj [])
  ((diffusion_setting.lookup "image_width").getD (Json.num 512),
   (diffusion_setting.lookup "image_height").getD (Json.num 512))

/-- The dict serialized by `json.dumps` in `on_generate_clicked` and POSTed
to `/api/generate`. `openvino_lcm_model_id` is `none` when
`model_combo.get_active_text()` returned `None`. -/
structure GenerationRequest where
  prompt : String
  inference_steps : Int
  use_openvino : Bool
  use_tiny_auto_encoder : Bool
  openvino_lcm_model_id : Option String
  image_width : Json
  image_height : Json

/-- One click of the Generate button, together with the live widget state the
handler can observe and the environment's behaviour for the resulting call.
`widthSel`/`heightSel` are the current selections of `width_combo` and
`height_combo` (the dialog offers exactly "256"/"512"/"768"/"1024"). -/
structure ClickEvent where
  promptText : String
  scaleValue : Int
  modelSel : Option String
  widthSel : Option String
  heightSel : Option String
  freshPath : String
  postOutcome : RawPost
  writeErr : Option String
  fileExists : Bool
  layerLoad : Option Bool

/-- The `config` dict built by `on_generate_clicked` (lines 300-310): prompt
from the text view, steps from the scale, model from `model_combo`, and
width/height from the CLOSURE variables `img_width`/`img_height` captured in
`run` — the handler never reads `width_combo` or `height_combo`. -/
def handler_request (img_width img_height : Json) (ev : ClickEvent) : GenerationRequest :=
  { prompt := ev.promptText
    inference_steps := ev.scaleValue
    use_openvino := true
    use_tiny_auto_encoder := false
    openvino_lcm_model_id := ev.modelSel
    image_width := img_width
    image_height := img_height }

/-- GIMP procedure return statuses the plugin constructs. -/
inductive PDBStatusType where
  | success : PDBStatusType
  | executionError : PDBStatusType

/-- What one invocation of the signal handler did: raised an exception (GTK
swallows it), or returned a value (`none` models Python's implicit `None`;
GTK discards the value either way). -/
inductive HandlerOutcome where
  | raised : PyExc → HandlerOutcome
  | returned : Option PDBStatusType → HandlerOutcome

/-- `on_generate_clicked` (lines 291-339): build the config, call
`generate_image` (whose `RuntimeError` propagates uncaught out of the
handler), then check the file exists and load it as a layer, returning an
EXECUTION_ERROR value on those failures and `None` when the layer loads.
Returns the handler outcome and the files created. -/
def on_generate_clicked (img_width img_height : Json) (ev : ClickEvent) :
    HandlerOutcome × List (String × List Nat) :=
  let _config := handler_request img_width img_height ev
  match generate_image ev.freshPath ev.postOutcome ev.writeErr with
  | (.error e, files) => (.raised e, files)
  | (.ok _path, files) =>
      if ev.fileExists then
        match ev.layerLoad with
        | some true => (.returned none, files)
        | some false => (.returned (some .executionError), files)
        | none => (.returned (some .executionError), files)
      else (.returned (some .executionError), files)

/-- The Server Gateway calls an invocation of `run` performs, in order. -/
inductive GatewayCall where
  | info : GatewayCall
  | config : GatewayCall
  | models : GatewayCall
  | generate : GatewayCall

instance : DecidableEq GatewayCall := fun a b => by
  cases a <;> cases b <;> first
    | exact isTrue rfl
    | exact isFalse (fun h => GatewayCall.noConfusion h)

/-- What `FastSDPlugin.run` produced: its return status and error message,
the gateway calls it made, and the (discarded) outcomes of the generate
handler for each click. -/
structure RunResult where
  status : PDBStatusType
  errMessage : Option String
  calls : List GatewayCall
  handlerOutcomes : List HandlerOutcome

/-- The plugin's configured base URL. -/
def FASTSD_SERVER_URL : String := "http://localhost:8000"

/-- `FastSDPlugin.run` (lines 142-349). The info fetch is the liveness probe:
on its `RuntimeError` the procedure returns EXECUTION_ERROR early, with a
message naming `FASTSD_SERVER_URL`, having made no further gateway call.
Otherwise settings and models are loaded (degrading independently), the
dimensions are resolved, and — in interactive mode — each Generate click runs
the handler, whose return value the GTK signal machinery discards; the
procedure always falls through to line 349 and returns SUCCESS. -/
def run (infoR configR modelsR : RawGet) (interactive : Bool)
    (events : List ClickEvent) : RunResult :=
  match get_info infoR with
  | .error e =>
      { status := .executionError
        errMessage := some ("Ensure that FastSD server is running at " ++
          FASTSD_SERVER_URL ++ ".\n" ++ PyExc.message e)
        calls := [.info]
        handlerOutcomes := [] }
  | .ok _info =>
      let sm := init_ui_settings configR modelsR
      let dims := resolved_dims sm.1
      let outcomes :=
        if interactive then
          events.map (fun ev => (on_generate_clicked dims.1 dims.2 ev).1)
        else []
      { status := .success
        errMessage := none
        calls := [.info, .config, .models] ++
          (if interactive then events.map (fun _ => GatewayCall.generate) else [])
        handlerOutcomes := outcomes }

/-! ## Concrete inputs used by individual claims -/

/-- A server config reporting 1024x1024 diffusion defaults. -/
def c1Settings : Json :=
  Json.obj [("lcm_diffusion_setting",
    Json.obj [("image_width", Json.num 1024), ("image_height", Json.num 1024)])]

/-- A click on Generate with both dimension combos set to "256" by the user. -/
def c1Event : ClickEvent :=
  { promptText := "a red fox"
    scaleValue := 4
    modelSel := some "LCM_Dreamshaper_v7"
    widthSel := some "256"
    heightSel := some "256"
    freshPath := "/tmp/tmpc1.png"
    postOutcome := RawPost.ok (Json.obj [("images", Json.arr [])])
    writeErr := none
    fileExists := true
    layerLoad := some true }

/-- A server config whose reported dimensions are the arbitrary integer 300. -/
def c3Settings : Json :=
  Json.obj [("lcm_diffusion_setting",
    Json.obj [("image_width", Json.num 300), ("image_height", Json.num 300)])]

/-- A click on Generate under the 300x300 server config. -/
def c3Event : ClickEvent :=
  { promptText := "a red fox"
    scaleValue := 4
    modelSel := some "LCM_Dreamshaper_v7"
    widthSel := none
    heightSel := none
    freshPath := "/tmp/tmpc3.png"
    postOutcome := RawPost.ok (Json.obj [("images", Json.arr [])])
    writeErr := none
    fileExists := true
    layerLoad := some true }

/-- The shape `get_request` gives every failure: a bare
`Exception("Error: " + str(cause))`. -/
def isGenericTransportFailure (e : PyExc) : Prop :=
  ∃ m, e = PyExc.exc ("Error: " ++ m)

/-! ## Helper lemmas: base64 round-trip -/

/-- Looking up the character of a 6-bit group recovers the group. -/
theorem charSextet_sextetChar : ∀ n : Nat, n < 64 → charSextet (sextetChar n) = some n := by
  decide

/-- No alphabet character is the padding character. -/
theorem sextetChar_ne_pad : ∀ n : Nat, n < 64 → ¬ sextetChar n = '=' := by
  decide

/-- Decoding one full four-character chunk of an encoding recovers the three
source bytes and continues on the remainder. -/
theorem decode_encode_cons (a b c : Nat) (ha : a < 256) (hb : b < 256) (hc : c < 256)
    (rest : List Char) :
    b64decodeCore (sextetChar (a / 4) :: sextetChar (a % 4 * 16 + b / 16) ::
      sextetChar (b % 16 * 4 + c / 64) :: sextetChar (c % 64) :: rest) =
    match b64decodeCore rest with
    | Except.ok bs => Except.ok (a :: b :: c :: bs)
    | Except.error e => Except.error e := by
  have h1 : a / 4 < 64 := by omega
  have h2 : a % 4 * 16 + b / 16 < 64 := by omega
  have h3 : b % 16 * 4 + c / 64 < 64 := by omega
  have h4 : c % 64 < 64 := by omega
  have e1 : a / 4 * 4 + (a % 4 * 16 + b / 16) / 16 = a := by omega
  have e2 : (a % 4 * 16 + b / 16) % 16 * 16 + (b % 16 * 4 + c / 64) / 4 = b := by omega
  have e3 : (b % 16 * 4 + c / 64) % 4 * 64 + c % 64 = c := by omega
  simp only [b64decodeCore, charSextet_sextetChar _ h1, charSextet_sextetChar _ h2,
    charSextet_sextetChar _ h3, charSextet_sextetChar _ h4,
    if_neg (sextetChar_ne_pad _ h3), if_neg (sextetChar_ne_pad _ h4), e1, e2, e3]

/-- Decoding the encoding of a single trailing byte recovers it. -/
theorem decode_encode_one (a : Nat) (ha : a < 256) :
    b64decodeCore (b64encode [a]) = Except.ok [a] := by
  have h1 : a / 4 < 64 := by omega
  have h2 : a % 4 * 16 < 64 := by omega
  have e1 : a / 4 * 4 + a % 4 * 16 / 16 = a := by omega
  simp only [b64encode, b64decodeCore, charSextet_sextetChar _ h1,
    charSextet_sextetChar _ h2, if_pos rfl, e1]
  simp

/-- Decoding the encoding of two trailing bytes recovers them. -/
theorem decode_encode_two (a b : Nat) (ha : a < 256) (hb : b < 256) :
    b64decodeCore (b64encode [a, b]) = Except.ok [a, b] := by
  have h1 : a / 4 < 64 := by omega
  have h2 : a % 4 * 16 + b / 16 < 64 := by omega
  have h3 : b % 16 * 4 < 64 := by omega
  have e1 : a / 4 * 4 + (a % 4 * 16 + b / 16) / 16 = a := by omega
  have e2 : (a % 4 * 16 + b / 16) % 16 * 16 + b % 16 * 4 / 4 = b := by omega
  simp only [b64encode, b64decodeCore, charSextet_sextetChar _ h1,
    charSextet_sextetChar _ h2, charSextet_sextetChar _ h3,
    if_neg (sextetChar_ne_pad _ h3), if_pos rfl, e1, e2]
  simp

/-- Decoding inverts encoding, by induction on byte triples (fuel on the list
length). -/
theorem decode_encode_aux : ∀ (n : Nat) (bs : List Nat), bs.length ≤ n →
    (∀ v ∈ bs, v < 256) → b64decodeCore (b64encode bs) = Except.ok bs := by
  intro n
  induction n with
  | zero =>
      intro bs hlen _
      match bs with
      | [] => rfl
      | v :: rest => simp at hlen
  | succ n ih =>
      intro bs hlen hbound
      match bs with
      | [] => rfl
      | [a] => exact decode_encode_one a (hbound a (by simp))
      | [a, b] => exact decode_encode_two a b (hbound a (by simp)) (hbound b (by simp))
      | a :: b :: c :: rest =>
          have ha : a < 256 := hbound a (by simp)
          have hb : b < 256 := hbound b (by simp)
          have hc : c < 256 := hbound c (by simp)
          have hrest : rest.length ≤ n := by simp at hlen; omega
          have hrb : ∀ v ∈ rest, v < 256 := fun v hv => hbound v (by simp [hv])
          rw [show b64encode (a :: b :: c :: rest) =
            sextetChar (a / 4) :: sextetChar (a % 4 * 16 + b / 16) ::
            sextetChar (b % 16 * 4 + c / 64) :: sextetChar (c % 64) :: b64encode rest
            from rfl]
          rw [decode_encode_cons a b c ha hb hc]
          rw [ih rest hrest hrb]

/-- `b64decode` inverts `b64encodeStr` on byte lists. -/
theorem b64_decode_encode (bs : List Nat) (h : ∀ v ∈ bs, v < 256) :
    b64decode (b64encodeStr bs) = Except.ok bs :=
  decode_encode_aux bs.length bs (Nat.le_refl _) h

/-! ## Claims -/

/-- C1: the claim says the resolved request's image_width/image_height equal
the user-chosen combo value whenever it lies in {256, 512, 768, 1024}. The
code disagrees: `on_generate_clicked` builds the config from the
closure-captured server defaults and never reads `width_combo`/`height_combo`,
so with the server reporting 1024 and the user selecting "256" the request
still carries 1024, and the request is invariant under any change to the
dimension selections. This theorem evaluates the code at that failing input. -/
theorem c1_user_dimension_choice_ignored :
    (handler_request (resolved_dims c1Settings).1 (resolved_dims c1Settings).2
        c1Event).image_width = Json.num 1024 ∧
    (handler_request (resolved_dims c1Settings).1 (resolved_dims c1Settings).2
        c1Event).image_height = Json.num 1024 ∧
    c1Event.widthSel = some "256" ∧
    ¬ (handler_request (resolved_dims c1Settings).1 (resolved_dims c1Settings).2
        c1Event).image_width = Json.num 256 ∧
    ∀ w h : Option String,
      handler_request (resolved_dims c1Settings).1 (resolved_dims c1Settings).2
          { c1Event with widthSel := w, heightSel := h }
        = handler_request (resolved_dims c1Settings).1 (resolved_dims c1Settings).2
          c1Event := by
  refine ⟨rfl, rfl, rfl, ?_, fun w h => rfl⟩
  intro h
  simp [handler_request, resolved_dims, c1Settings, Json.lookup] at h

/-- C2 counterexample: with the POST returning `images: []`, `generate_image`
does NOT create zero files — the temporary file is allocated before
`result["images"][0]` is read, so exactly one (empty) file is left behind. -/
theorem c2_counterexample :
    ¬ ((generate_image "/tmp/tmpc2.png"
        (RawPost.ok (Json.obj [("images", Json.arr [])])) none).2 = []) ∧
    (generate_image "/tmp/tmpc2.png"
        (RawPost.ok (Json.obj [("images", Json.arr [])])) none).2
      = [("/tmp/tmpc2.png", [])] := by
  exact ⟨fun h => List.noConfusion h, rfl⟩

/-- C2 amended: on an empty images sequence `generate_image` raises the
generation failure wrapping the `IndexError` and returns no path, but it has
already created exactly one empty temporary file; only a failure of the POST
itself (transport error or unparseable body) creates zero files. -/
theorem c2_empty_images_failure :
    ∀ (p m : String) (wErr : Option String),
    (generate_image p (RawPost.ok (Json.obj [("images", Json.arr [])])) wErr)
      = (Except.error (genFail (PyExc.indexError "list index out of range")),
         [(p, [])]) ∧
    (generate_image p (RawPost.connFail m) wErr).2 = [] ∧
    (generate_image p (RawPost.badBody m) wErr).2 = [] := by
  intro p m wErr
  exact ⟨rfl, rfl, rfl⟩

/-- C3 counterexample: a valid ServerConfig reporting `image_width = 300`
puts 300 — outside {256, 512, 768, 1024} — into the resolved request. -/
theorem c3_counterexample :
    (handler_request (resolved_dims c3Settings).1 (resolved_dims c3Settings).2
        c3Event).image_width = Json.num 300 ∧
    ¬ ((handler_request (resolved_dims c3Settings).1 (resolved_dims c3Settings).2
          c3Event).image_width
        ∈ [Json.num 256, Json.num 512, Json.num 768, Json.num 1024]) := by
  refine ⟨rfl, ?_⟩
  intro h
  simp [handler_request, resolved_dims, c3Settings, Json.lookup] at h

/-- C3 amended: the width/height placed in the resolved request equal the
server-reported defaults verbatim whenever the config carries them — whatever
integers they are — and equal 512 only when they are absent; membership in
{256, 512, 768, 1024} is guaranteed only in the absent case. -/
theorem c3_dims_pass_through :
    ∀ settings : Json,
    (((settings.lookup "lcm_diffusion_setting").getD (Json.obj [])).lookup
        "image_width" = none → (resolved_dims settings).1 = Json.num 512) ∧
    (∀ j, ((settings.lookup "lcm_diffusion_setting").getD (Json.obj [])).lookup
        "image_width" = some j → (resolved_dims settings).1 = j) ∧
    (((settings.lookup "lcm_diffusion_setting").getD (Json.obj [])).lookup
        "image_height" = none → (resolved_dims settings).2 = Json.num 512) ∧
    (∀ j, ((settings.lookup "lcm_diffusion_setting").getD (Json.obj [])).lookup
        "image_height" = some j → (resolved_dims settings).2 = j) := by
  intro settings
  refine ⟨fun h => ?_, fun j h => ?_, fun h => ?_, fun j h => ?_⟩ <;>
    simp [resolved_dims, h]

/-- C3 witness: with an empty config both dimensions resolve to 512. -/
theorem c3_dims_pass_through_witness :
    (((Json.obj []).lookup "lcm_diffusion_setting").getD (Json.obj [])).lookup
        "image_width" = none ∧
    (resolved_dims (Json.obj [])).1 = Json.num 512 ∧
    (resolved_dims (Json.obj [])).2 = Json.num 512 :=
  ⟨rfl, (c3_dims_pass_through (Json.obj [])).1 rfl,
    (c3_dims_pass_through (Json.obj [])).2.2.1 rfl⟩

/-- C4: every failure of `generate_image` — transport error on the POST,
missing or empty image sequence, base64 decode error, or file write error —
surfaces as the single wrapper `RuntimeError("Failed to generate image ")`
carrying the original cause, and no path is returned (the result is an
error, not an `ok` path). -/
theorem c4_generation_failures_wrapped :
    ∀ (p : String) (post : RawPost) (wErr : Option String) (e : PyExc),
    (generate_image p post wErr).1 = Except.error e →
    ∃ cause, e = PyExc.runtime "Failed to generate image " (some cause) := by
  intro p post wErr e h
  unfold generate_image at h
  repeat' split at h
  all_goals first
    | exact Except.noConfusion h
    | exact ⟨_, (Except.error.inj h).symm⟩

/-- C4 witness: a POST connection failure surfaces as the wrapper around the
connection error. -/
theorem c4_generation_failures_wrapped_witness :
    (generate_image "/tmp/tmpc4.png" (RawPost.connFail "boom") none).1
      = Except.error (genFail (PyExc.conn "boom")) ∧
    ∃ cause, genFail (PyExc.conn "boom")
      = PyExc.runtime "Failed to generate image " (some cause) :=
  ⟨rfl, c4_generation_failures_wrapped "/tmp/tmpc4.png" (RawPost.connFail "boom")
    none (genFail (PyExc.conn "boom")) rfl⟩

/-- C5: when the info fetch fails, `run` returns EXECUTION_ERROR with a
message that includes the configured base URL, and the info probe is the only
gateway call of the invocation — no config, models or generation call is
attempted. -/
theorem c5_liveness_failure_fatal :
    ∀ (infoR configR modelsR : RawGet) (interactive : Bool)
      (events : List ClickEvent) (e : PyExc),
    get_info infoR = Except.error e →
    (run infoR configR modelsR interactive events).status
        = PDBStatusType.executionError ∧
    (∃ pre suf, (run infoR configR modelsR interactive events).errMessage
        = some (pre ++ FASTSD_SERVER_URL ++ suf)) ∧
    (run infoR configR modelsR interactive events).calls = [GatewayCall.info] := by
  intro infoR configR modelsR interactive events e h
  refine ⟨?_, ⟨"Ensure that FastSD server is running at ",
    ".\n" ++ PyExc.message e, ?_⟩, ?_⟩ <;>
    simp [run, h, String.append_assoc]

/-- C5 witness: an unreachable info endpoint at a concrete input. -/
theorem c5_liveness_failure_fatal_witness :
    get_info (RawGet.connFail "connection refused")
      = Except.error (PyExc.runtime "Failed to get info from FastSD"
          (some (PyExc.exc ("Error: " ++ "connection refused")))) ∧
    ((run (RawGet.connFail "connection refused") (RawGet.ok (Json.obj []))
        (RawGet.ok (Json.obj [])) true []).status = PDBStatusType.executionError ∧
     (∃ pre suf, (run (RawGet.connFail "connection refused")
          (RawGet.ok (Json.obj [])) (RawGet.ok (Json.obj [])) true []).errMessage
        = some (pre ++ FASTSD_SERVER_URL ++ suf)) ∧
     (run (RawGet.connFail "connection refused") (RawGet.ok (Json.obj []))
        (RawGet.ok (Json.obj [])) true []).calls = [GatewayCall.info]) :=
  ⟨rfl, c5_liveness_failure_fatal (RawGet.connFail "connection refused")
    (RawGet.ok (Json.obj [])) (RawGet.ok (Json.obj [])) true []
    (PyExc.runtime "Failed to get info from FastSD"
      (some (PyExc.exc ("Error: " ++ "connection refused")))) rfl⟩

/-- C6: the config fetch and the models fetch degrade independently — a
failed config fetch substitutes `{}` for the settings, a failed models fetch
substitutes `[]` for the catalog, and each component of the result depends
only on its own fetch, so one failure neither prevents the other fetch nor
discards its result. -/
theorem c6_degraded_fetches_independent :
    ∀ (configR modelsR : RawGet),
    ((∃ e, load_settings configR = Except.error e) →
        (init_ui_settings configR modelsR).1 = Json.obj []) ∧
    ((∃ e, get_models modelsR = Except.error e) →
        (init_ui_settings configR modelsR).2 = Json.arr []) ∧
    (∀ configR', (init_ui_settings configR modelsR).2
        = (init_ui_settings configR' modelsR).2) ∧
    (∀ modelsR', (init_ui_settings configR modelsR).1
        = (init_ui_settings configR modelsR').1) := by
  intro configR modelsR
  refine ⟨fun ⟨e, he⟩ => ?_, fun ⟨e, he⟩ => ?_, fun configR' => rfl, fun modelsR' => rfl⟩ <;>
    simp [init_ui_settings, he]

/-- C6 witness: with both endpoints down, the settings degrade to `{}` and
the catalog to `[]`. -/
theorem c6_degraded_fetches_independent_witness :
    (init_ui_settings (RawGet.connFail "down") (RawGet.connFail "down")).1
        = Json.obj [] ∧
    (init_ui_settings (RawGet.connFail "down") (RawGet.connFail "down")).2
        = Json.arr [] :=
  ⟨(c6_degraded_fetches_independent (RawGet.connFail "down")
      (RawGet.connFail "down")).1 ⟨_, rfl⟩,
   (c6_degraded_fetches_independent (RawGet.connFail "down")
      (RawGet.connFail "down")).2.1 ⟨_, rfl⟩⟩

/-- C7 counterexample: the claim says BOTH transport operations wrap every
failure as a single generic transport failure; but `generate_text_to_image`
(the POST) has no try/except, so a connection failure surfaces as the raw
underlying exception, not as `get_request`'s `Exception("Error: ...")`
wrapper. -/
theorem c7_counterexample :
    generate_text_to_image (RawPost.connFail "Connection refused")
      = Except.error (PyExc.conn "Connection refused") ∧
    ¬ isGenericTransportFailure (PyExc.conn "Connection refused") :=
  ⟨rfl, fun h => Exists.elim h (fun _ hm => PyExc.noConfusion hm)⟩

/-- C7 amended: only `get_request` (GET) wraps every connection failure and
unparseable body as the single generic `Exception("Error: " + cause)`;
`generate_text_to_image` (POST) performs no wrapping and lets the underlying
exception propagate untouched to its caller. -/
theorem c7_get_wraps_post_propagates :
    ∀ m : String,
    get_request (RawGet.connFail m)
        = Except.error (PyExc.exc ("Error: " ++ m)) ∧
    get_request (RawGet.badBody m)
        = Except.error (PyExc.exc ("Error: " ++ m)) ∧
    isGenericTransportFailure (PyExc.exc ("Error: " ++ m)) ∧
    generate_text_to_image (RawPost.connFail m) = Except.error (PyExc.conn m) ∧
    generate_text_to_image (RawPost.badBody m)
        = Except.error (PyExc.jsonError m) :=
  fun m => ⟨rfl, rfl, ⟨m, rfl⟩, rfl, rfl⟩

/-- C8: when the first images element is a valid (canonically encoded) base64
payload, `generate_image` succeeds, and the bytes it writes to the returned
artifact file re-encode to exactly the original payload string. -/
theorem c8_payload_roundtrip :
    ∀ (payload : List Nat) (p : String),
    (∀ v ∈ payload, v < 256) →
    ∃ written : List Nat,
      generate_image p
          (RawPost.ok (Json.obj
            [("images", Json.arr [Json.str (b64encodeStr payload)])])) none
        = (Except.ok p, [(p, written)]) ∧
      b64encodeStr written = b64encodeStr payload := by
  intro payload p h
  refine ⟨payload, ?_, rfl⟩
  simp [generate_image, generate_text_to_image, subscript, json_index, json_b64decode,
    Json.lookup, b64_decode_encode payload h]

/-- C8 witness: the payload encoding the bytes of "fox". -/
theorem c8_payload_roundtrip_witness :
    (∀ v ∈ [102, 111, 120], v < 256) ∧
    ∃ written : List Nat,
      generate_image "/tmp/tmpc8.png"
          (RawPost.ok (Json.obj
            [("images", Json.arr [Json.str (b64encodeStr [102, 111, 120])])])) none
        = (Except.ok "/tmp/tmpc8.png", [("/tmp/tmpc8.png", written)]) ∧
      b64encodeStr written = b64encodeStr [102, 111, 120] :=
  ⟨by decide, c8_payload_roundtrip [102, 111, 120] "/tmp/tmpc8.png" (by decide)⟩

/-- C10: whenever the initial info fetch succeeds, `run` reports SUCCESS —
the EXECUTION_ERROR values constructed inside the generate-button handler are
returned to the GTK signal machinery and discarded, so no generation failure
during the session can change the procedure's final status, which is also
independent of the click events altogether. -/
theorem c10_run_reports_success :
    ∀ (infoR configR modelsR : RawGet) (interactive : Bool)
      (events : List ClickEvent) (j : Json),
    get_info infoR = Except.ok j →
    (run infoR configR modelsR interactive events).status = PDBStatusType.success ∧
    ∀ events' : List ClickEvent,
      (run infoR configR modelsR interactive events).status
        = (run infoR configR modelsR interactive events').status := by
  intro infoR configR modelsR interactive events j h
  constructor <;> simp [run, h]

/-- C10 witness: a session whose single generation attempt fails on
transport still ends with SUCCESS. -/
theorem c10_run_reports_success_witness :
    get_info (RawGet.ok (Json.obj [])) = Except.ok (Json.obj []) ∧
    ((run (RawGet.ok (Json.obj [])) (RawGet.connFail "down")
        (RawGet.connFail "down") true [c3Event]).status = PDBStatusType.success ∧
     ∀ events' : List ClickEvent,
      (run (RawGet.ok (Json.obj [])) (RawGet.connFail "down")
          (RawGet.connFail "down") true [c3Event]).status
        = (run (RawGet.ok (Json.obj [])) (RawGet.connFail "down")
            (RawGet.connFail "down") true events').status) :=
  ⟨rfl, c10_run_reports_success (RawGet.ok (Json.obj [])) (RawGet.connFail "down")
    (RawGet.connFail "down") true [c3Event] (Json.obj []) rfl⟩

end FastSD
